import Mathlib

/-!
Verification of the Google Cloud DNS MCP server's core client
(`src/lib/client.ts`, tool layer `src/tools/domains.ts`, data model
`src/types/index.ts`) against its natural-language specification.

The TypeScript client is shallowly embedded: every network interaction
(environment variables, `JSON.parse`, the OAuth token exchange, HTTP
responses of the DNS API) is an explicit input to the embedded function,
and each function additionally reports how many network requests it
issued, so that claims about "no network call" are statable.  Thrown
`Error` values are embedded as structured error values carrying exactly
the data that the source interpolates into the message string.
-/

/-! ## Data model (`src/types/index.ts`) -/

/-- `ResourceRecordSet` of `types/index.ts`: every field is optional there. -/
structure ResourceRecordSet where
  name : Option String := none
  type : Option String := none
  ttl : Option Nat := none
  rrdatas : Option (List String) := none
  signatureRrdatas : Option (List String) := none
  kind : Option String := none
deriving Repr, DecidableEq

/-- `Change` of `types/index.ts`: an atomic batch of additions/deletions with
a lifecycle `status` that the remote system reports as `pending` or `done`.
All fields are optional in the source. -/
structure Change where
  id : Option String := none
  additions : Option (List ResourceRecordSet) := none
  deletions : Option (List ResourceRecordSet) := none
  startTime : Option String := none
  status : Option String := none
  kind : Option String := none
deriving Repr, DecidableEq

/-- `ManagedZone` of `types/index.ts` (the nested `dnssecConfig` object and
the `labels` map are never inspected by the claims and are left out). -/
structure ManagedZone where
  id : Option String := none
  name : Option String := none
  dnsName : Option String := none
  description : Option String := none
  nameServers : Option (List String) := none
  creationTime : Option String := none
  visibility : Option String := none
deriving Repr, DecidableEq

/-- `CreateRecordInput` of `types/index.ts` (all four fields required). -/
structure CreateRecordInput where
  name : String
  type : String
  ttl : Nat
  rrdatas : List String
deriving Repr, DecidableEq

/-- `UpdateRecordInput` of `types/index.ts` (`ttl` optional). -/
structure UpdateRecordInput where
  name : String
  type : String
  ttl : Option Nat := none
  rrdatas : List String
deriving Repr, DecidableEq

/-! ## JavaScript truthiness helpers

The client leans on JS truthiness (`if (!credentials)`, `a || b`); these
helpers embed it for the value shapes that actually occur. -/

/-- Truthiness of a `string | undefined` value: `undefined` and `""` are falsy. -/
def truthyStr : Option String → Bool
  | none => false
  | some s => s != ""

/-- Truthiness of a `number | undefined` value: `undefined` and `0` are falsy. -/
def truthyInt : Option Int → Bool
  | none => false
  | some n => n != 0

/-- JS `a || b` on a `number | undefined` left operand and a number default:
`undefined` and `0` fall through to `b`. -/
def jsOr (a : Option Nat) (b : Nat) : Nat :=
  match a with
  | some n => if n = 0 then b else n
  | none => b

/-- JS `a || b` on a `string | undefined` left operand: `undefined` and `""`
fall through to `b`. -/
def jsOrStr (a : Option String) (b : String) : String :=
  match a with
  | some s => if s = "" then b else s
  | none => b

/-- JS `a || b` where `a` is an `array | undefined`: an array is always
truthy (even `[]`), only `undefined` falls through to `b`. -/
def jsOrList {α : Type} (a : Option (List α)) (b : List α) : List α :=
  match a with
  | some l => l
  | none => b

/-! ## TokenProvider (`GoogleCloudDNSClient.getAccessToken`, client.ts 16-75) -/

/-- The two private cache fields of `GoogleCloudDNSClient`:
`accessToken?: string` and `tokenExpiry?: number` (milliseconds). -/
structure TokenCache where
  accessToken : Option String := none
  tokenExpiry : Option Int := none
deriving Repr, DecidableEq

/-- The relevant projections of the parsed service-account JSON.  The source
reads `serviceAccount.client_email` and `serviceAccount.private_key` without
checking that either is present, so both are optional here. -/
structure ServiceAccount where
  client_email : Option String := none
  private_key : Option String := none
deriving Repr, DecidableEq

/-- The token endpoint's success payload: `access_token` and `expires_in`
(seconds). -/
structure TokenData where
  access_token : String
  expires_in : Int
deriving Repr, DecidableEq

/-- The three distinct `Error` shapes `getAccessToken` can throw, by source
line: missing `GOOGLE_CLOUD_CREDENTIALS` (line 24), credentials that are not
valid JSON (line 32), and a non-ok token-exchange response whose body text is
carried along (line 67). -/
inductive TokenError where
  | missingCredentials : TokenError
  | invalidCredentialJson : TokenError
  | exchangeRejected : String → TokenError
deriving Repr, DecidableEq

/-- The external world as seen by one `getAccessToken` call: the
`GOOGLE_CLOUD_CREDENTIALS` environment variable, the outcome of
`JSON.parse` on it (`none` embeds a parse throw), the outcome of the
token-endpoint fetch, and `Date.now()` in milliseconds. -/
structure TokenEnv where
  credentials : Option String
  parsedCredentials : Option ServiceAccount
  exchangeResult : Except String TokenData
  now : Int
deriving Repr

/-- The constant `60000` ms subtracted from the server expiry on line 72
("Refresh 1 min early"). -/
def tokenSafetyMarginMs : Int := 60000

/-- Line 18 of client.ts:
`this.accessToken && this.tokenExpiry && Date.now() < this.tokenExpiry`. -/
def tokenCacheHit (st : TokenCache) (now : Int) : Bool :=
  truthyStr st.accessToken && truthyInt st.tokenExpiry
    && decide (now < st.tokenExpiry.getD 0)

/-- `getAccessToken` (client.ts 16-75).  Returns the token and the new cache
state (or a `TokenError`), paired with the number of network requests made
(the token-endpoint fetch is the only possible one).  The placeholder
`createJWT` (lines 80-94) is pure string assembly that never reads
`private_key`, so no branch of this function depends on the signing key:
the embedding moves straight from the parsed credentials to the exchange. -/
def getAccessToken (st : TokenCache) (env : TokenEnv) :
    Except TokenError (String × TokenCache) × Nat :=
  if tokenCacheHit st env.now then
    (Except.ok (st.accessToken.getD "", st), 0)
  else if truthyStr env.credentials = false then
    (Except.error TokenError.missingCredentials, 0)
  else
    match env.parsedCredentials with
    | none => (Except.error TokenError.invalidCredentialJson, 0)
    | some _sa =>
      match env.exchangeResult with
      | Except.error body => (Except.error (TokenError.exchangeRejected body), 1)
      | Except.ok td =>
        let expiry := env.now + td.expires_in * 1000 - tokenSafetyMarginMs
        (Except.ok (td.access_token,
          { accessToken := some td.access_token, tokenExpiry := some expiry }), 1)

/-- C1: a cache hit performs zero network calls, returns the cached token
unchanged and leaves both cache fields untouched.  The hypotheses are the
claim's: a (nonempty) token is cached, an expiry threshold is cached, the
clock is nonnegative (it is `Date.now()`) and still below the threshold. -/
theorem cachedToken_hit_no_network (st : TokenCache) (env : TokenEnv)
    (t : String) (e : Int)
    (htok : st.accessToken = some t) (ht : t ≠ "")
    (hexp : st.tokenExpiry = some e)
    (hclock : 0 ≤ env.now) (hnow : env.now < e) :
    getAccessToken st env = (Except.ok (t, st), 0) := by
  have hhit : tokenCacheHit st env.now = true := by
    simp [tokenCacheHit, htok, hexp, truthyStr, truthyInt, ht, hnow]
    omega
  simp [getAccessToken, hhit, htok]

/-- Witness for `cachedToken_hit_no_network` at a concrete state. -/
theorem cachedToken_hit_no_network_witness :
    ({ accessToken := some "tok", tokenExpiry := some 500000 } : TokenCache).accessToken
        = some "tok"
    ∧ ("tok" : String) ≠ ""
    ∧ ({ accessToken := some "tok", tokenExpiry := some 500000 } : TokenCache).tokenExpiry
        = some 500000
    ∧ (0 : Int) ≤ 400000 ∧ (400000 : Int) < 500000
    ∧ getAccessToken { accessToken := some "tok", tokenExpiry := some 500000 }
        { credentials := some "cred", parsedCredentials := none,
          exchangeResult := Except.error "unused", now := 400000 }
      = (Except.ok ("tok", { accessToken := some "tok", tokenExpiry := some 500000 }), 0) :=
  ⟨rfl, by decide, rfl, by decide, by decide,
    cachedToken_hit_no_network _ _ "tok" 500000 rfl (by decide) rfl (by decide) (by decide)⟩

/-- C7: when the cache misses (no token, or its stored threshold has passed),
one successful `getAccessToken` call performs exactly one network request
(the token exchange), replaces the cache with
`(token, expiry = now + server_ttl - safetyMargin)`, the margin is 60s, and
the new expiry is in the future whenever the server-granted ttl exceeds the
margin. -/
theorem staleToken_single_refresh (st : TokenCache) (env : TokenEnv)
    (sa : ServiceAccount) (td : TokenData)
    (hmiss : st.accessToken = none ∨ ∃ e, st.tokenExpiry = some e ∧ e ≤ env.now)
    (hcred : truthyStr env.credentials = true)
    (hparse : env.parsedCredentials = some sa)
    (hex : env.exchangeResult = Except.ok td)
    (httl : tokenSafetyMarginMs < td.expires_in * 1000) :
    getAccessToken st env =
      (Except.ok (td.access_token,
        { accessToken := some td.access_token,
          tokenExpiry := some (env.now + td.expires_in * 1000 - tokenSafetyMarginMs) }), 1)
    ∧ env.now < env.now + td.expires_in * 1000 - tokenSafetyMarginMs
    ∧ 60 * 1000 ≤ tokenSafetyMarginMs := by
  have hmiss2 : tokenCacheHit st env.now = false := by
    rcases hmiss with h | ⟨e, he, hle⟩
    · simp [tokenCacheHit, h, truthyStr]
    · simp only [tokenCacheHit, he, Option.getD_some, Bool.and_eq_false_iff]
      right
      simp only [decide_eq_false_iff_not, not_lt]
      exact hle
  refine ⟨?_, by omega, by norm_num [tokenSafetyMarginMs]⟩
  simp [getAccessToken, hmiss2, hcred, hparse, hex]

/-- A concrete token-endpoint grant with a 3600-second ttl. -/
def freshTokenData : TokenData := { access_token := "fresh", expires_in := 3600 }

/-- A concrete environment for a successful refresh at `now = 1000000`. -/
def freshEnv : TokenEnv :=
  { credentials := some "cred",
    parsedCredentials := some {},
    exchangeResult := Except.ok freshTokenData,
    now := 1000000 }

/-- Witness for `staleToken_single_refresh`: an empty cache refreshed with a
3600-second server ttl at `now = 1000000`. -/
theorem staleToken_single_refresh_witness :
    (({} : TokenCache).accessToken = none
      ∨ ∃ e, ({} : TokenCache).tokenExpiry = some e ∧ e ≤ freshEnv.now)
    ∧ truthyStr freshEnv.credentials = true
    ∧ freshEnv.parsedCredentials = some {}
    ∧ freshEnv.exchangeResult = Except.ok freshTokenData
    ∧ tokenSafetyMarginMs < freshTokenData.expires_in * 1000
    ∧ (getAccessToken {} freshEnv =
      (Except.ok (freshTokenData.access_token,
        { accessToken := some freshTokenData.access_token,
          tokenExpiry :=
            some (freshEnv.now + freshTokenData.expires_in * 1000 - tokenSafetyMarginMs) }), 1)
      ∧ freshEnv.now < freshEnv.now + freshTokenData.expires_in * 1000 - tokenSafetyMarginMs
      ∧ 60 * 1000 ≤ tokenSafetyMarginMs) :=
  ⟨Or.inl rfl, by decide, rfl, rfl, by decide,
    staleToken_single_refresh {} freshEnv {} freshTokenData
      (Or.inl rfl) (by decide) rfl rfl (by decide)⟩

/-- A parsed service-account credential that lacks the `private_key` field. -/
def missingKeyAccount : ServiceAccount :=
  { client_email := some "svc@project.iam.gserviceaccount.com" }

/-- An environment whose credential JSON parses but carries no signing key,
and whose token exchange succeeds. -/
def missingKeyEnv : TokenEnv :=
  { credentials := some "json-without-private-key",
    parsedCredentials := some missingKeyAccount,
    exchangeResult := Except.ok { access_token := "granted", expires_in := 3600 },
    now := 1000000 }

/-- C9 counterexample: a credential that parses as JSON but lacks the signing
key is NOT rejected before the token exchange.  `getAccessToken` issues one
network request and returns the exchanged token: the placeholder `createJWT`
never reads `private_key`, so no configuration-class error is raised. -/
theorem missingSigningKey_not_rejected_cex :
    missingKeyAccount.private_key = none
    ∧ (getAccessToken {} missingKeyEnv).2 = 1
    ∧ (getAccessToken {} missingKeyEnv).1
        = Except.ok ("granted",
            { accessToken := some "granted", tokenExpiry := some 4540000 })
    ∧ ∀ err, (getAccessToken {} missingKeyEnv).1 ≠ Except.error err := by
  refine ⟨rfl, rfl, rfl, ?_⟩
  intro err h
  exact Except.noConfusion h

/-- C9 amended: only malformed credential JSON fails fast, with a
configuration-class error (`invalidCredentialJson`) raised before any network
call and distinct from the exchange-rejection and missing-variable errors;
a credential that parses but lacks the signing key is not detected and the
token exchange network call proceeds. -/
theorem malformedCredentialJson_fails_fast (st : TokenCache) (env : TokenEnv)
    (hmiss : tokenCacheHit st env.now = false)
    (hcred : truthyStr env.credentials = true)
    (hbad : env.parsedCredentials = none) :
    getAccessToken st env = (Except.error TokenError.invalidCredentialJson, 0)
    ∧ (∀ b, TokenError.invalidCredentialJson ≠ TokenError.exchangeRejected b)
    ∧ TokenError.invalidCredentialJson ≠ TokenError.missingCredentials
    ∧ (∀ (st2 : TokenCache) (env2 : TokenEnv) (sa : ServiceAccount) (td : TokenData),
        tokenCacheHit st2 env2.now = false → truthyStr env2.credentials = true →
        env2.parsedCredentials = some sa → sa.private_key = none →
        env2.exchangeResult = Except.ok td → (getAccessToken st2 env2).2 = 1) := by
  refine ⟨?_, fun b h => TokenError.noConfusion h, fun h => TokenError.noConfusion h, ?_⟩
  · simp [getAccessToken, hmiss, hcred, hbad]
  · intro st2 env2 sa td h1 h2 h3 h4 h5
    simp [getAccessToken, h1, h2, h3, h5]

/-- Witness for `malformedCredentialJson_fails_fast` on a concrete malformed
credential string. -/
theorem malformedCredentialJson_fails_fast_witness :
    tokenCacheHit {} (0 : Int) = false
    ∧ truthyStr (some "not-json") = true
    ∧ ({ credentials := some "not-json", parsedCredentials := none,
         exchangeResult := Except.error "unused", now := 0 } : TokenEnv).parsedCredentials
        = none
    ∧ getAccessToken {}
        { credentials := some "not-json", parsedCredentials := none,
          exchangeResult := Except.error "unused", now := 0 }
      = (Except.error TokenError.invalidCredentialJson, 0) :=
  ⟨by decide, by decide, rfl,
    (malformedCredentialJson_fails_fast {} _ (by decide) (by decide) rfl).1⟩

/-! ## ZoneRecordClient mutation payloads (client.ts 162-213)

`createRecord`, `updateRecord` and `deleteRecord` each build exactly one
`Change` object literal and POST it to `/managedZones/{zone}/changes`; the
functions below are those literals. -/

/-- The change literal of `createRecord` (client.ts 164-171): only an
`additions` property is written; no `deletions` key appears in the object. -/
def createRecordChange (recordData : CreateRecordInput) : Change :=
  { additions := some [{ name := some recordData.name,
                         type := some recordData.type,
                         ttl := some recordData.ttl,
                         rrdatas := some recordData.rrdatas }] }

/-- The change literal of `updateRecord` (client.ts 184-192): deletions is
`[oldRecord]` and the addition's ttl is
`newRecord.ttl || oldRecord.ttl || 300` (JS `||`, so `0` also falls through). -/
def updateRecordChange (oldRecord : ResourceRecordSet)
    (newRecord : UpdateRecordInput) : Change :=
  { deletions := some [oldRecord],
    additions := some [{ name := some newRecord.name,
                         type := some newRecord.type,
                         ttl := some (jsOr newRecord.ttl (jsOr oldRecord.ttl 300)),
                         rrdatas := some newRecord.rrdatas }] }

/-- The change literal of `deleteRecord` (client.ts 205-207): only a
`deletions` property is written; no `additions` key appears, and no record
type is inspected — the client method itself has no NS/SOA guard. -/
def deleteRecordChange (record : ResourceRecordSet) : Change :=
  { deletions := some [record] }

/-- C5: `updateRecord(zone, old, new)` with `new.ttl` unspecified submits
`deletions = [old]` and a single addition whose ttl equals `old.ttl`.  The
old record is assumed to carry the positive ttl that the data model gives
every ResourceRecordSet (a ttl of `0` or an absent ttl would instead default
to 300 through JS `||`). -/
theorem updateRecord_ttl_defaults_to_old (oldRecord : ResourceRecordSet)
    (newRecord : UpdateRecordInput) (t : Nat)
    (hnew : newRecord.ttl = none)
    (hold : oldRecord.ttl = some t) (hpos : 0 < t) :
    (updateRecordChange oldRecord newRecord).deletions = some [oldRecord]
    ∧ (updateRecordChange oldRecord newRecord).additions =
        some [{ name := some newRecord.name,
                type := some newRecord.type,
                ttl := oldRecord.ttl,
                rrdatas := some newRecord.rrdatas }] := by
  refine ⟨rfl, ?_⟩
  simp only [updateRecordChange, hnew, hold, jsOr]
  have : ¬ t = 0 := by omega
  simp [this]

/-- Witness for `updateRecord_ttl_defaults_to_old` on a concrete update whose
input leaves ttl out. -/
theorem updateRecord_ttl_defaults_to_old_witness :
    ({ name := "www.example.com.", type := "A",
       rrdatas := ["5.6.7.8"] } : UpdateRecordInput).ttl = none
    ∧ ({ name := some "www.example.com.", type := some "A", ttl := some 300,
         rrdatas := some ["1.2.3.4"] } : ResourceRecordSet).ttl = some 300
    ∧ 0 < 300
    ∧ ((updateRecordChange
          { name := some "www.example.com.", type := some "A", ttl := some 300,
            rrdatas := some ["1.2.3.4"] }
          { name := "www.example.com.", type := "A", rrdatas := ["5.6.7.8"] }).deletions =
        some [{ name := some "www.example.com.", type := some "A", ttl := some 300,
                rrdatas := some ["1.2.3.4"] }]
      ∧ (updateRecordChange
          { name := some "www.example.com.", type := some "A", ttl := some 300,
            rrdatas := some ["1.2.3.4"] }
          { name := "www.example.com.", type := "A", rrdatas := ["5.6.7.8"] }).additions =
        some [{ name := some "www.example.com.", type := some "A",
                ttl := ({ name := some "www.example.com.", type := some "A",
                          ttl := some 300,
                          rrdatas := some ["1.2.3.4"] } : ResourceRecordSet).ttl,
                rrdatas := some ["5.6.7.8"] }]) :=
  ⟨rfl, rfl, by decide,
    updateRecord_ttl_defaults_to_old _ _ 300 rfl rfl (by decide)⟩

/-- A concrete record-creation input. -/
def sampleCreateInput : CreateRecordInput :=
  { name := "a.example.com.", type := "A", ttl := 300, rrdatas := ["1.2.3.4"] }

/-- A concrete A record. -/
def sampleRecord : ResourceRecordSet :=
  { name := some "a.example.com.", type := some "A", ttl := some 300,
    rrdatas := some ["1.2.3.4"] }

/-- C6 counterexample: the claim says every mutating operation submits a
Change containing BOTH lists, with `createRecord` sending `deletions = []`
and `deleteRecord` sending `additions = []`.  In the source the create
literal has no `deletions` key at all and the delete literal has no
`additions` key: the fields are absent (`none`), not empty lists. -/
theorem mutation_change_shape_cex :
    (createRecordChange sampleCreateInput).deletions = none
    ∧ (createRecordChange sampleCreateInput).deletions ≠ some []
    ∧ (deleteRecordChange sampleRecord).additions = none
    ∧ (deleteRecordChange sampleRecord).additions ≠ some [] := by
  refine ⟨rfl, ?_, rfl, ?_⟩ <;> intro h <;> exact Option.noConfusion h

/-- C6 amended: every mutating operation submits exactly one Change;
`createRecord` submits `additions = [rec]` and omits the deletions field,
`updateRecord` submits `deletions = [old]` plus one addition, and
`deleteRecord` submits `deletions = [rec]` and omits the additions field. -/
theorem mutation_change_shape (cr : CreateRecordInput)
    (oldRecord : ResourceRecordSet) (nw : UpdateRecordInput)
    (r : ResourceRecordSet) :
    (createRecordChange cr).additions =
        some [{ name := some cr.name, type := some cr.type, ttl := some cr.ttl,
                rrdatas := some cr.rrdatas }]
    ∧ (createRecordChange cr).deletions = none
    ∧ (updateRecordChange oldRecord nw).deletions = some [oldRecord]
    ∧ (∃ a, (updateRecordChange oldRecord nw).additions = some [a])
    ∧ (deleteRecordChange r).deletions = some [r]
    ∧ (deleteRecordChange r).additions = none :=
  ⟨rfl, rfl, rfl, ⟨_, rfl⟩, rfl, rfl⟩

/-! ## List operations (client.ts 120-157) -/

/-- `listManagedZones` returns `response.managedZones || []` (line 123). -/
def listManagedZonesResult (managedZones : Option (List ManagedZone)) :
    List ManagedZone :=
  jsOrList managedZones []

/-- `listRecords` returns `response.rrsets || []` (line 153). -/
def listRecordsResult (rrsets : Option (List ResourceRecordSet)) :
    List ResourceRecordSet :=
  jsOrList rrsets []

/-- C10: a successful response without the expected list field (`managedZones`
for `listManagedZones`, `rrsets` for `listRecords`) yields the empty list,
never an undefined value, while a present field is passed through unchanged. -/
theorem absent_list_field_defaults_empty :
    listManagedZonesResult none = []
    ∧ listRecordsResult none = []
    ∧ (∀ zs, listManagedZonesResult (some zs) = zs)
    ∧ (∀ rs, listRecordsResult (some rs) = rs) :=
  ⟨rfl, rfl, fun _ => rfl, fun _ => rfl⟩

/-! ## ChangeWaiter (`GoogleCloudDNSClient.waitForChange`, client.ts 229-244)

The polling loop is embedded with an explicit clock: `obs n` is the Change
that the backend reports on the `n`-th `getChange` call, `lat n` the
wall-clock milliseconds that call takes, and each non-done observation is
followed by the fixed 2000 ms sleep of line 240.  The loop-top timeout check
of line 232 compares the accumulated elapsed time against `timeout`. -/

/-- The timeout error of line 243: it carries the change id and the duration
interpolated into the message (`timeout` milliseconds). -/
inductive WaitError where
  | changeTimeout : String → Nat → WaitError
deriving Repr, DecidableEq

/-- One full run of the polling loop: the returned or thrown value, the sleep
durations performed between polls, the number of `getChange` requests issued,
and the elapsed wall-clock time when the loop ended. -/
structure WaitOutcome where
  result : Except WaitError Change
  sleeps : List Nat
  pollCount : Nat
  elapsedEnd : Nat
deriving Repr

/-- The `while` loop of client.ts 232-241, from poll index `n` at elapsed
time `elapsed`. -/
def waitLoop (obs : Nat → Change) (lat : Nat → Nat) (changeId : String)
    (timeout : Nat) (n : Nat) (elapsed : Nat) : WaitOutcome :=
  if h : elapsed < timeout then
    if (obs n).status = some "done" then
      { result := Except.ok (obs n), sleeps := [], pollCount := 1,
        elapsedEnd := elapsed + lat n }
    else
      let rest := waitLoop obs lat changeId timeout (n + 1) (elapsed + lat n + 2000)
      { result := rest.result, sleeps := 2000 :: rest.sleeps,
        pollCount := rest.pollCount + 1, elapsedEnd := rest.elapsedEnd }
  else
    { result := Except.error (WaitError.changeTimeout changeId timeout),
      sleeps := [], pollCount := 0, elapsedEnd := elapsed }
termination_by timeout - elapsed
decreasing_by omega

/-- `waitForChange` (client.ts 229): the loop started at poll 0 and elapsed 0,
with the source's default timeout of 300000 ms. -/
def waitForChange (obs : Nat → Change) (lat : Nat → Nat) (changeId : String)
    (timeout : Nat := 300000) : WaitOutcome :=
  waitLoop obs lat changeId timeout 0 0

/-- The wall-clock delay between the start of poll `n` and the start of poll
`n + m`: each intermediate poll costs its latency plus the 2000 ms sleep. -/
def pollDelay (lat : Nat → Nat) (n m : Nat) : Nat :=
  match m with
  | 0 => 0
  | Nat.succ m => lat n + 2000 + pollDelay lat (n + 1) m

/-- If the first done observation from poll `n` on is `m` polls later and its
loop-top check still falls inside the timeout, the loop returns exactly that
observation, having slept 2000 ms exactly `m` times. -/
theorem waitLoop_first_done (obs : Nat → Change) (lat : Nat → Nat)
    (changeId : String) (timeout : Nat) :
    ∀ m n elapsed,
      (∀ k, k < m → (obs (n + k)).status ≠ some "done") →
      (obs (n + m)).status = some "done" →
      elapsed + pollDelay lat n m < timeout →
      waitLoop obs lat changeId timeout n elapsed =
        { result := Except.ok (obs (n + m)), sleeps := List.replicate m 2000,
          pollCount := m + 1,
          elapsedEnd := elapsed + pollDelay lat n m + lat (n + m) } := by
  intro m
  induction m with
  | zero =>
    intro n elapsed _ hdone hlt
    rw [waitLoop]
    simp only [pollDelay, Nat.add_zero] at hlt hdone ⊢
    rw [dif_pos hlt, if_pos hdone]
    rfl
  | succ m ih =>
    intro n elapsed hbefore hdone hlt
    have hd : pollDelay lat n (m + 1) = lat n + 2000 + pollDelay lat (n + 1) m := rfl
    have hlt0 : elapsed < timeout := by omega
    have hnot : ¬ (obs n).status = some "done" := by
      have := hbefore 0 (Nat.succ_pos m)
      simpa using this
    rw [waitLoop, dif_pos hlt0, if_neg hnot]
    have harg : ∀ k, k < m → (obs (n + 1 + k)).status ≠ some "done" := by
      intro k hk
      have := hbefore (k + 1) (by omega)
      have he : n + (k + 1) = n + 1 + k := by omega
      rwa [he] at this
    have hdone2 : (obs (n + 1 + m)).status = some "done" := by
      have he : n + (m + 1) = n + 1 + m := by omega
      rwa [he] at hdone
    have hlt2 : elapsed + lat n + 2000 + pollDelay lat (n + 1) m < timeout := by
      omega
    rw [ih (n + 1) (elapsed + lat n + 2000) harg hdone2 hlt2]
    have he : n + 1 + m = n + (m + 1) := by omega
    simp only [he, List.replicate_succ]
    refine congrArg₂ _ rfl ?_
    congr 1
    omega

/-- If no observation whose loop-top check falls inside the timeout is done,
the loop throws the change-timeout error (carrying the change id and the
timeout duration) and the elapsed time at the throw is at least `timeout`. -/
theorem waitLoop_timeout (obs : Nat → Change) (lat : Nat → Nat)
    (changeId : String) (timeout : Nat) :
    ∀ d n elapsed, timeout - elapsed ≤ d →
      (∀ m, elapsed + pollDelay lat n m < timeout →
        (obs (n + m)).status ≠ some "done") →
      (waitLoop obs lat changeId timeout n elapsed).result =
          Except.error (WaitError.changeTimeout changeId timeout)
      ∧ timeout ≤ (waitLoop obs lat changeId timeout n elapsed).elapsedEnd := by
  intro d
  induction d with
  | zero =>
    intro n elapsed hd _
    have hge : ¬ elapsed < timeout := by omega
    rw [waitLoop, dif_neg hge]
    refine ⟨rfl, ?_⟩
    show timeout ≤ elapsed
    omega
  | succ d ih =>
    intro n elapsed hd hnever
    by_cases hlt : elapsed < timeout
    · have hnot : ¬ (obs n).status = some "done" := by
        have := hnever 0 (by simpa [pollDelay] using hlt)
        simpa using this
      rw [waitLoop, dif_pos hlt, if_neg hnot]
      have harg : ∀ m, elapsed + lat n + 2000 + pollDelay lat (n + 1) m < timeout →
          (obs (n + 1 + m)).status ≠ some "done" := by
        intro m hm
        have hdm : elapsed + pollDelay lat n (m + 1) < timeout := by
          have hd2 : pollDelay lat n (m + 1) = lat n + 2000 + pollDelay lat (n + 1) m := rfl
          omega
        have := hnever (m + 1) hdm
        have he : n + (m + 1) = n + 1 + m := by omega
        rwa [he] at this
      exact ih (n + 1) (elapsed + lat n + 2000) (by omega) harg
    · rw [waitLoop, dif_neg hlt]
      refine ⟨rfl, ?_⟩
      show timeout ≤ elapsed
      omega

/-- The loop can only return (as opposed to throw) a Change that passed the
`status === "done"` check of line 235. -/
theorem waitLoop_ok_only_done (obs : Nat → Change) (lat : Nat → Nat)
    (changeId : String) (timeout : Nat) :
    ∀ d n elapsed (c : Change), timeout - elapsed ≤ d →
      (waitLoop obs lat changeId timeout n elapsed).result = Except.ok c →
      c.status = some "done" := by
  intro d
  induction d with
  | zero =>
    intro n elapsed c hd h
    have hge : ¬ elapsed < timeout := by omega
    rw [waitLoop, dif_neg hge] at h
    exact Except.noConfusion h
  | succ d ih =>
    intro n elapsed c hd h
    by_cases hlt : elapsed < timeout
    · by_cases hdone : (obs n).status = some "done"
      · rw [waitLoop, dif_pos hlt, if_pos hdone] at h
        have : obs n = c := Except.ok.inj h
        rw [← this]
        exact hdone
      · rw [waitLoop, dif_pos hlt, if_neg hdone] at h
        exact ih (n + 1) (elapsed + lat n + 2000) c (by omega) h
    · rw [waitLoop, dif_neg hlt] at h
      exact Except.noConfusion h

/-- C2: if the `N`-th observation (`N ≥ 1`) is the first with status `done`
and its loop-top check still falls inside the default 300000 ms timeout,
`waitForChange` returns exactly that observed Change after exactly `N`
`getChange` requests, sleeping a fixed 2000 ms between consecutive polls
(`N - 1` sleeps, all equal to 2000); and on any run whatsoever the loop never
returns a Change whose status is not `done`. -/
theorem waitForChange_returns_first_done (obs : Nat → Change) (lat : Nat → Nat)
    (changeId : String) (N : Nat) (hN : 1 ≤ N)
    (hdone : (obs (N - 1)).status = some "done")
    (hbefore : ∀ k, k < N - 1 → (obs k).status ≠ some "done")
    (hreach : pollDelay lat 0 (N - 1) < 300000) :
    (waitForChange obs lat changeId).result = Except.ok (obs (N - 1))
    ∧ (waitForChange obs lat changeId).pollCount = N
    ∧ (waitForChange obs lat changeId).sleeps = List.replicate (N - 1) 2000
    ∧ ∀ (obs2 : Nat → Change) (lat2 : Nat → Nat) (id2 : String) (tmo : Nat)
        (c : Change),
        (waitForChange obs2 lat2 id2 tmo).result = Except.ok c →
        c.status = some "done" := by
  have h0 : ∀ k, k < N - 1 → (obs (0 + k)).status ≠ some "done" := by
    simpa using hbefore
  have hdone0 : (obs (0 + (N - 1))).status = some "done" := by
    simpa using hdone
  have hlt0 : 0 + pollDelay lat 0 (N - 1) < 300000 := by simpa using hreach
  have h := waitLoop_first_done obs lat changeId 300000 (N - 1) 0 0 h0 hdone0 hlt0
  unfold waitForChange
  rw [h]
  refine ⟨by simp, by simp; omega, rfl, ?_⟩
  intro obs2 lat2 id2 tmo c hc
  exact waitLoop_ok_only_done obs2 lat2 id2 tmo tmo 0 0 c (by omega) hc

/-- A pending Change as the backend reports it while propagation runs. -/
def pendingChange : Change := { id := some "ch-1", status := some "pending" }

/-- The completed form of the same Change. -/
def doneChange : Change := { id := some "ch-1", status := some "done" }

/-- A backend on which the second poll is the first to report `done`. -/
def twoPollObs : Nat → Change := fun n => if n = 0 then pendingChange else doneChange

/-- Zero network latency on every poll. -/
def zeroLat : Nat → Nat := fun _ => 0

/-- Witness for `waitForChange_returns_first_done` with `N = 2`. -/
theorem waitForChange_returns_first_done_witness :
    1 ≤ 2
    ∧ (twoPollObs (2 - 1)).status = some "done"
    ∧ (∀ k, k < 2 - 1 → (twoPollObs k).status ≠ some "done")
    ∧ pollDelay zeroLat 0 (2 - 1) < 300000
    ∧ ((waitForChange twoPollObs zeroLat "ch-1").result = Except.ok (twoPollObs (2 - 1))
      ∧ (waitForChange twoPollObs zeroLat "ch-1").pollCount = 2
      ∧ (waitForChange twoPollObs zeroLat "ch-1").sleeps = List.replicate (2 - 1) 2000
      ∧ ∀ (obs2 : Nat → Change) (lat2 : Nat → Nat) (id2 : String) (tmo : Nat)
          (c : Change),
          (waitForChange obs2 lat2 id2 tmo).result = Except.ok c →
          c.status = some "done") :=
  ⟨by decide, by decide,
    by intro k hk; have hk0 : k = 0 := by omega
       subst hk0; decide,
    by decide,
    waitForChange_returns_first_done twoPollObs zeroLat "ch-1" 2 (by decide) (by decide)
      (by intro k hk; have hk0 : k = 0 := by omega
          subst hk0; decide)
      (by decide)⟩

/-- C3: if no observation reached inside the timeout bound reports `done`,
`waitForChange` throws the change-timeout error, which carries the change id
and the duration (`timeout` ms, hence a reported duration of at least
`timeoutMs`), and the elapsed wall-clock time at the throw is at least
`timeout`. -/
theorem waitForChange_times_out (obs : Nat → Change) (lat : Nat → Nat)
    (changeId : String) (timeout : Nat)
    (hnever : ∀ m, pollDelay lat 0 m < timeout → (obs m).status ≠ some "done") :
    (waitForChange obs lat changeId timeout).result =
        Except.error (WaitError.changeTimeout changeId timeout)
    ∧ timeout ≤ (waitForChange obs lat changeId timeout).elapsedEnd := by
  have harg : ∀ m, 0 + pollDelay lat 0 m < timeout →
      (obs (0 + m)).status ≠ some "done" := by
    simpa using hnever
  exact waitLoop_timeout obs lat changeId timeout timeout 0 0 (by omega) harg

/-- A backend that never reports `done`. -/
def allPendingObs : Nat → Change := fun _ => pendingChange

/-- Witness for `waitForChange_times_out` with a 4000 ms timeout. -/
theorem waitForChange_times_out_witness :
    (∀ m, pollDelay zeroLat 0 m < 4000 → (allPendingObs m).status ≠ some "done")
    ∧ ((waitForChange allPendingObs zeroLat "ch-1" 4000).result =
        Except.error (WaitError.changeTimeout "ch-1" 4000)
      ∧ 4000 ≤ (waitForChange allPendingObs zeroLat "ch-1" 4000).elapsedEnd) :=
  ⟨by intro m _
      show pendingChange.status ≠ some "done"
      decide,
    waitForChange_times_out allPendingObs zeroLat "ch-1" 4000
      (by intro m _
          show pendingChange.status ≠ some "done"
          decide)⟩

/-! ## Transport / error normalization (`makeRequest`, client.ts 96-115) -/

/-- The nested `error` object of a structured Google API error body. -/
structure ErrField where
  message : Option String := none
deriving Repr, DecidableEq

/-- The projections of a parsed JSON error body that line 111 reads:
`error.error?.message` and `error.message`. -/
structure ApiErrorBody where
  errorField : Option ErrField := none
  message : Option String := none
deriving Repr, DecidableEq

/-- An HTTP response as `makeRequest` inspects it on the error path:
`response.status`, `response.statusText`, and the result of
`response.json()` on the body (`none` embeds a JSON parse rejection). -/
structure HttpResponse where
  status : Nat
  statusText : String
  errorBody : Option ApiErrorBody
deriving Repr, DecidableEq

/-- `response.ok` of the Fetch API: status in the range 200-299. -/
def respOk (resp : HttpResponse) : Bool :=
  decide (200 ≤ resp.status) && decide (resp.status < 300)

/-- The structured content of the thrown transport error: the numeric HTTP
status and the normalized message interpolated on line 111. -/
structure ApiError where
  status : Nat
  message : String
deriving Repr, DecidableEq

/-- Line 111's message chain
`error.error?.message || error.message || response.statusText`
(JS `||`, so an empty string also falls through). -/
def apiErrorMessage (body : ApiErrorBody) (statusText : String) : String :=
  jsOrStr (body.errorField.bind ErrField.message) (jsOrStr body.message statusText)

/-- Lines 110-111: the body is parsed as JSON; a parse rejection is replaced
by the catch fallback `{ error: { message: response.statusText } }`, and the
thrown error carries `response.status` and the normalized message. -/
def makeRequestError (resp : HttpResponse) : ApiError :=
  let body := resp.errorBody.getD
    { errorField := some { message := some resp.statusText }, message := none }
  { status := resp.status, message := apiErrorMessage body resp.statusText }

/-- The full message text thrown on line 111. -/
def renderApiError (e : ApiError) : String :=
  "Google Cloud DNS API Error (" ++ toString e.status ++ "): " ++ e.message

/-- Lines 109-114: a non-success status throws the normalized error, a
success status does not. -/
def makeRequestCheck (resp : HttpResponse) : Option ApiError :=
  if respOk resp then none else some (makeRequestError resp)

/-- C8: every non-success response raises an error carrying the numeric
status code; when the JSON body parses and supplies a provider message
(nested `error.message`, or the top-level `message` when the nested one is
missing or empty), the error message is that provider message, and when the
body is not parseable JSON the message falls back to the raw status text. -/
theorem request_error_normalization (resp : HttpResponse)
    (hbad : respOk resp = false) :
    makeRequestCheck resp = some (makeRequestError resp)
    ∧ (makeRequestError resp).status = resp.status
    ∧ (∀ b m, resp.errorBody = some b →
        b.errorField.bind ErrField.message = some m → m ≠ "" →
        (makeRequestError resp).message = m
        ∧ renderApiError (makeRequestError resp) =
            "Google Cloud DNS API Error (" ++ toString resp.status ++ "): " ++ m)
    ∧ (∀ b m, resp.errorBody = some b →
        (b.errorField.bind ErrField.message = none
          ∨ b.errorField.bind ErrField.message = some "") →
        b.message = some m → m ≠ "" →
        (makeRequestError resp).message = m)
    ∧ (resp.errorBody = none →
        (makeRequestError resp).message = resp.statusText) := by
  refine ⟨by simp [makeRequestCheck, hbad], rfl, ?_, ?_, ?_⟩
  · intro b m hb hm hne
    have : (makeRequestError resp).message = m := by
      simp [makeRequestError, hb, apiErrorMessage, hm, jsOrStr, hne]
    exact ⟨this, by rw [renderApiError, this]; rfl⟩
  · intro b m hb hfirst hm hne
    rcases hfirst with h1 | h1 <;>
      simp [makeRequestError, hb, apiErrorMessage, h1, hm, jsOrStr, hne]
  · intro hb
    by_cases hst : resp.statusText = "" <;>
      simp [makeRequestError, hb, apiErrorMessage, jsOrStr, hst]

/-- A concrete 404 response with a provider-supplied message. -/
def notFoundResp : HttpResponse :=
  { status := 404, statusText := "Not Found",
    errorBody := some { errorField := some { message := some "zone not found" } } }

/-- Witness for `request_error_normalization` on `notFoundResp` and, for the
fallback conjunct, on an unparseable 500 body. -/
theorem request_error_normalization_witness :
    respOk notFoundResp = false
    ∧ (makeRequestCheck notFoundResp = some (makeRequestError notFoundResp)
      ∧ (makeRequestError notFoundResp).status = notFoundResp.status
      ∧ (∀ b m, notFoundResp.errorBody = some b →
          b.errorField.bind ErrField.message = some m → m ≠ "" →
          (makeRequestError notFoundResp).message = m
          ∧ renderApiError (makeRequestError notFoundResp) =
              "Google Cloud DNS API Error (" ++ toString notFoundResp.status ++ "): " ++ m)
      ∧ (∀ b m, notFoundResp.errorBody = some b →
          (b.errorField.bind ErrField.message = none
            ∨ b.errorField.bind ErrField.message = some "") →
          b.message = some m → m ≠ "" →
          (makeRequestError notFoundResp).message = m)
      ∧ (notFoundResp.errorBody = none →
          (makeRequestError notFoundResp).message = notFoundResp.statusText)) :=
  ⟨by decide, request_error_normalization notFoundResp (by decide)⟩

/-! ## DeleteDNSRecordTool (`domains.ts` 439-494)

The tool's `execute` is embedded with the backend abstracted into an
environment: the outcome of the `listRecords` call it makes first, the
outcome of the change submission, and the outcome (and request count) of the
`waitForChange` polling that follows a submission.  The network requests the
run issues are counted per kind, so that "no network request" and "no change
submission" are both statable. -/

/-- The tool input after MCP schema validation: `zoneName`, `name`, `type`. -/
structure DeleteRecordToolInput where
  zoneName : String
  name : String
  type : String
deriving Repr, DecidableEq

/-- DNS-API requests issued during one `execute` run, by kind: `rrsets`
listings, change submissions (POST `/changes`), and change polls
(GET `/changes/{id}`). -/
structure NetTrace where
  listCalls : Nat
  changeSubmits : Nat
  changePolls : Nat
deriving Repr, DecidableEq

/-- Total number of DNS-API network requests in a trace. -/
def NetTrace.total (tr : NetTrace) : Nat :=
  tr.listCalls + tr.changeSubmits + tr.changePolls

/-- The distinct results `DeleteDNSRecordTool.execute` can produce, in source
order: the `zoneName` validation error (line 445), the record-not-found error
(line 456), the NS/SOA policy rejection (line 464), a propagated thrown error
(catch block, line 488), and the success report (line 476). -/
inductive DeleteToolOutcome where
  | invalidZoneName : DeleteToolOutcome
  | notFound : String → String → String → DeleteToolOutcome
  | policyRejected : String → DeleteToolOutcome
  | failed : String → DeleteToolOutcome
  | deleted : Option String → Option String → DeleteToolOutcome
deriving Repr, DecidableEq

/-- The backend as one `execute` run sees it. -/
structure DeleteToolEnv where
  listResult : Except String (List ResourceRecordSet)
  submitResult : Except String Change
  waitResult : Except String Change
  waitPolls : Nat

/-- Line 454: `records.find(r => r.name === input.name && r.type === input.type)`
(strict equality, so an absent field never matches). -/
def findRecord (records : List ResourceRecordSet) (name type : String) :
    Option ResourceRecordSet :=
  records.find? (fun r => r.name == some name && r.type == some type)

/-- `DeleteDNSRecordTool.execute` (domains.ts 439-494).  Source order: the
`zoneName` check, then the `listRecords` network call, then the find, THEN
the NS/SOA guard, and only after all of those the change submission and the
`waitForChange` polling. -/
def deleteDNSRecordExecute (input : DeleteRecordToolInput)
    (env : DeleteToolEnv) : DeleteToolOutcome × NetTrace :=
  if input.zoneName = "" then
    (DeleteToolOutcome.invalidZoneName, ⟨0, 0, 0⟩)
  else
    match env.listResult with
    | Except.error msg => (DeleteToolOutcome.failed msg, ⟨1, 0, 0⟩)
    | Except.ok records =>
      match findRecord records input.name input.type with
      | none =>
        (DeleteToolOutcome.notFound input.name input.type input.zoneName, ⟨1, 0, 0⟩)
      | some _recordToDelete =>
        if input.type = "NS" ∨ input.type = "SOA" then
          (DeleteToolOutcome.policyRejected input.type, ⟨1, 0, 0⟩)
        else
          match env.submitResult with
          | Except.error msg => (DeleteToolOutcome.failed msg, ⟨1, 1, 0⟩)
          | Except.ok change =>
            match env.waitResult with
            | Except.error msg =>
              (DeleteToolOutcome.failed msg, ⟨1, 1, env.waitPolls⟩)
            | Except.ok completed =>
              (DeleteToolOutcome.deleted change.id completed.status,
                ⟨1, 1, env.waitPolls⟩)

/-- An NS record as the remote zone reports it. -/
def nsRecord : ResourceRecordSet :=
  { name := some "example.com.", type := some "NS", ttl := some 21600,
    rrdatas := some ["ns1.example.com."] }

/-- A delete request for that NS record. -/
def nsDeleteInput : DeleteRecordToolInput :=
  { zoneName := "zone1", name := "example.com.", type := "NS" }

/-- A backend in which the zone lists exactly that NS record. -/
def nsDeleteEnv : DeleteToolEnv :=
  { listResult := Except.ok [nsRecord],
    submitResult := Except.ok {},
    waitResult := Except.ok {},
    waitPolls := 0 }

/-- C4 counterexample: deleting an NS record IS rejected with the policy
error, but only after the tool's `listRecords` lookup — one DNS-API network
request has already been issued in the course of rejecting it, refuting "no
network request is issued". -/
theorem deleteNS_rejection_after_network_cex :
    (deleteDNSRecordExecute nsDeleteInput nsDeleteEnv).1 =
        DeleteToolOutcome.policyRejected "NS"
    ∧ (deleteDNSRecordExecute nsDeleteInput nsDeleteEnv).2.total = 1
    ∧ (deleteDNSRecordExecute nsDeleteInput nsDeleteEnv).2.total ≠ 0 := by
  refine ⟨rfl, rfl, ?_⟩
  intro h
  exact absurd ((show (deleteDNSRecordExecute nsDeleteInput nsDeleteEnv).2.total = 1
    from rfl) ▸ h) one_ne_zero

/-- C4 amended: for every NS or SOA record present in the zone, the delete
tool rejects with the policy error before any change submission (zero change
POSTs and zero polls) — but the rejection comes after the record-listing
lookup, so exactly one network request has been issued; the guard lives in
the tool layer, and `deleteRecord` in the client class itself has no guard
(its change literal is built for any record, as `deleteRecordChange` shows). -/
theorem deleteNS_policy_rejection (input : DeleteRecordToolInput)
    (env : DeleteToolEnv) (records : List ResourceRecordSet)
    (r : ResourceRecordSet)
    (hz : input.zoneName ≠ "")
    (hlist : env.listResult = Except.ok records)
    (hfound : findRecord records input.name input.type = some r)
    (htype : input.type = "NS" ∨ input.type = "SOA") :
    deleteDNSRecordExecute input env =
        (DeleteToolOutcome.policyRejected input.type, ⟨1, 0, 0⟩)
    ∧ (deleteDNSRecordExecute input env).2.changeSubmits = 0
    ∧ (deleteDNSRecordExecute input env).2.changePolls = 0
    ∧ (deleteDNSRecordExecute input env).2.listCalls = 1 := by
  have h : deleteDNSRecordExecute input env =
      (DeleteToolOutcome.policyRejected input.type, ⟨1, 0, 0⟩) := by
    simp [deleteDNSRecordExecute, hz, hlist, hfound, htype]
  exact ⟨h, by rw [h], by rw [h], by rw [h]⟩

/-- Witness for `deleteNS_policy_rejection` on the concrete NS deletion. -/
theorem deleteNS_policy_rejection_witness :
    nsDeleteInput.zoneName ≠ ""
    ∧ nsDeleteEnv.listResult = Except.ok [nsRecord]
    ∧ findRecord [nsRecord] nsDeleteInput.name nsDeleteInput.type = some nsRecord
    ∧ (nsDeleteInput.type = "NS" ∨ nsDeleteInput.type = "SOA")
    ∧ (deleteDNSRecordExecute nsDeleteInput nsDeleteEnv =
        (DeleteToolOutcome.policyRejected nsDeleteInput.type, ⟨1, 0, 0⟩)
      ∧ (deleteDNSRecordExecute nsDeleteInput nsDeleteEnv).2.changeSubmits = 0
      ∧ (deleteDNSRecordExecute nsDeleteInput nsDeleteEnv).2.changePolls = 0
      ∧ (deleteDNSRecordExecute nsDeleteInput nsDeleteEnv).2.listCalls = 1) :=
  ⟨by decide, rfl, by decide, Or.inl rfl,
    deleteNS_policy_rejection nsDeleteInput nsDeleteEnv [nsRecord] nsRecord
      (by decide) rfl (by decide) (Or.inl rfl)⟩
